import Mathlib

/-!
Shallow embedding of the TMC-Model forecasting / health-evaluation engine.

Source modules embedded here:
* `src/raffleModel.ts` — campaign forecast (`forecastRaffle`), snapshot health
  evaluation (`evaluateHealth`, `statusFromProgress`, `statusFromOverrun`) and
  the ticket-phase budget allocator (`calculatePhases`).
* the phase-tracking module (`planPhase`, `evaluatePhaseHealth`).
* `web/lib/raffleCalculator.ts` — the retention-window fragment of
  `calculateRaffleNeeds`.

Modelling conventions:
* JavaScript numbers are modelled by `JNum`: an exact rational together with
  the three non-finite IEEE values `Infinity`, `-Infinity` and `NaN`.  Exact
  rational arithmetic idealises float rounding; the negative zero `-0` is
  conflated with `0` (no embedded claim distinguishes them).
* Functions whose inputs are ordinary finite numbers take `ℚ` fields and lift
  to `JNum` exactly where the source can produce a non-finite value.
* A `throw` in the source is modelled by an `Option` result: `none` is the
  thrown error, `some` a normal return.
* Free-text recommendation strings (`notes` / `generateRecommendations`) are
  not modelled: no verified property concerns their content.
-/

/-- Three-level health signal, ordered RED < AMBER < GREEN.
Defined identically in both source modules. -/
inductive TrafficLight where
  | RED
  | AMBER
  | GREEN
deriving DecidableEq, Repr, BEq

/-- Ordinal rank of a traffic light: RED = 0, AMBER = 1, GREEN = 2. -/
def TrafficLight.rank : TrafficLight → Nat
  | .RED => 0
  | .AMBER => 1
  | .GREEN => 2

/-- Spec-side definition (not from the source): the worst of three statuses
under the order RED < AMBER < GREEN, used to compare against the
`includes`-based roll-up computed by `evaluateHealth`. -/
def worstOfThree (a b c : TrafficLight) : TrafficLight :=
  if a.rank ≤ b.rank then (if a.rank ≤ c.rank then a else c)
  else (if b.rank ≤ c.rank then b else c)

/-- Model of a JavaScript (IEEE double) number value: an exact rational,
positive infinity, negative infinity, or NaN.  `-0` is conflated with `0`. -/
inductive JNum where
  | fin (q : ℚ)
  | inf
  | ninf
  | nan
deriving DecidableEq, Repr

namespace JNum

/-- JavaScript `isFinite`. -/
def isFinite : JNum → Bool
  | .fin _ => true
  | _ => false

/-- JavaScript unary negation. -/
def neg : JNum → JNum
  | .fin q => .fin (-q)
  | .inf => .ninf
  | .ninf => .inf
  | .nan => .nan

/-- JavaScript addition on extended values. -/
def add : JNum → JNum → JNum
  | .nan, _ => .nan
  | _, .nan => .nan
  | .inf, .ninf => .nan
  | .ninf, .inf => .nan
  | .inf, _ => .inf
  | _, .inf => .inf
  | .ninf, _ => .ninf
  | _, .ninf => .ninf
  | .fin a, .fin b => .fin (a + b)

/-- JavaScript subtraction, `a - b = a + (-b)`. -/
def sub (a b : JNum) : JNum := add a (neg b)

/-- JavaScript multiplication on extended values (`Infinity * 0 = NaN`). -/
def mul : JNum → JNum → JNum
  | .nan, _ => .nan
  | _, .nan => .nan
  | .inf, .inf => .inf
  | .inf, .ninf => .ninf
  | .ninf, .inf => .ninf
  | .ninf, .ninf => .inf
  | .inf, .fin b => if b > 0 then .inf else if b < 0 then .ninf else .nan
  | .fin a, .inf => if a > 0 then .inf else if a < 0 then .ninf else .nan
  | .ninf, .fin b => if b > 0 then .ninf else if b < 0 then .inf else .nan
  | .fin a, .ninf => if a > 0 then .ninf else if a < 0 then .inf else .nan
  | .fin a, .fin b => .fin (a * b)

/-- JavaScript division on extended values.  A nonzero finite value divided
by zero gives a signed infinity (the divisor zero is `+0`), `0 / 0 = NaN`,
and a finite value divided by an infinity gives `0`. -/
def div : JNum → JNum → JNum
  | .nan, _ => .nan
  | _, .nan => .nan
  | .inf, .inf => .nan
  | .inf, .ninf => .nan
  | .ninf, .inf => .nan
  | .ninf, .ninf => .nan
  | .inf, .fin b => if b < 0 then .ninf else .inf
  | .ninf, .fin b => if b < 0 then .inf else .ninf
  | .fin _, .inf => .fin 0
  | .fin _, .ninf => .fin 0
  | .fin a, .fin b =>
    if b = 0 then (if a > 0 then .inf else if a < 0 then .ninf else .nan)
    else .fin (a / b)

/-- JavaScript strict comparison `a < b`; any comparison with NaN is false. -/
def jlt : JNum → JNum → Bool
  | .nan, _ => false
  | _, .nan => false
  | .fin a, .fin b => a < b
  | .ninf, .ninf => false
  | .ninf, _ => true
  | _, .ninf => false
  | .inf, _ => false
  | .fin _, .inf => true

/-- JavaScript comparison `a <= b`; any comparison with NaN is false. -/
def jle : JNum → JNum → Bool
  | .nan, _ => false
  | _, .nan => false
  | .fin a, .fin b => a ≤ b
  | .ninf, _ => true
  | _, .ninf => false
  | _, .inf => true
  | .inf, .fin _ => false

/-- JavaScript `Math.max` of two values; NaN if either argument is NaN. -/
def jmax : JNum → JNum → JNum
  | .nan, _ => .nan
  | _, .nan => .nan
  | .inf, _ => .inf
  | _, .inf => .inf
  | .ninf, b => b
  | a, .ninf => a
  | .fin a, .fin b => .fin (max a b)

/-- JavaScript `Math.min` of two values; NaN if either argument is NaN. -/
def jmin : JNum → JNum → JNum
  | .nan, _ => .nan
  | _, .nan => .nan
  | .ninf, _ => .ninf
  | _, .ninf => .ninf
  | .inf, b => b
  | a, .inf => a
  | .fin a, .fin b => .fin (min a b)

/-- JavaScript `Math.round`: round half toward positive infinity on finite
values; the identity on the non-finite values. -/
def round : JNum → JNum
  | .fin q => .fin (⌊q + 1 / 2⌋ : ℤ)
  | .inf => .inf
  | .ninf => .ninf
  | .nan => .nan

end JNum

namespace RaffleModel

/-- Campaign configuration (`RaffleConfig` in `src/raffleModel.ts`).  The ISO
date strings `startDate`/`endDate` are modelled by their parsed epoch-millis
timestamps; the optional `baselineCPANew` field by an `Option`. -/
structure RaffleConfig where
  id : String
  name : String
  startDate : ℤ
  endDate : ℤ
  targetGMV : ℚ
  averageTicketPrice : ℚ
  marketingBudgetTotal : ℚ
  budgetSplitNew : ℚ
  budgetSplitRet : ℚ
  baselineLTVNew : ℚ
  targetLTVToCAC : ℚ
  baselineCRR20d : ℚ
  baselineGMVPerRetainedUser20d : ℚ
  baseExistingCustomers : ℚ
  expectedAOVNew : ℚ
  expectedAOVRet : ℚ
  baselineCPANew : Option ℚ
deriving DecidableEq, Repr

/-- Forecast produced by `forecastRaffle` (`ForecastOutput` in the source). -/
structure ForecastOutput where
  durationDays : ℚ
  targetCACNew : ℚ
  expectedNewCustomers : ℚ
  expectedRetainedCustomers : ℚ
  gmvNewWindow : ℚ
  gmvRetentionWindow : ℚ
  gmvTotalForecast : ℚ
deriving DecidableEq, Repr

/-- Point-in-time observation (`SnapshotMetrics` in the source). -/
structure SnapshotMetrics where
  dayNumber : ℚ
  gmvToDate : ℚ
  spendToDate : ℚ
  newCustomersToDate : ℚ
  retainedCustomersToDate : ℚ
  ordersToDate : ℚ
  acquisitionSpendToDate : Option ℚ
deriving DecidableEq, Repr

/-- Output of `evaluateHealth` (`HealthStatus` in the source).  The free-text
`notes` array is not modelled. -/
structure HealthStatus where
  dayNumber : ℚ
  gmvProjected : ℚ
  gmvProgress : ℚ
  spendProjected : ℚ
  spendUtilisation : ℚ
  newCustomersProjected : ℚ
  newUserProgress : ℚ
  retainedCustomersProjected : ℚ
  retainedProgress : ℚ
  actualCPA : Option ℚ
  actualCACNew : Option ℚ
  gmvStatus : TrafficLight
  cpaStatus : TrafficLight
  cacStatus : TrafficLight
  retentionStatus : TrafficLight
  overallStatus : TrafficLight
deriving DecidableEq, Repr

/-- Ratio cutoffs (`EvaluationThresholds` in the source). -/
structure EvaluationThresholds where
  gmvGreen : ℚ
  gmvAmber : ℚ
  retentionGreen : ℚ
  retentionAmber : ℚ
  cacGreenOverTarget : ℚ
  cacAmberOverTarget : ℚ
  cpaGreenOverTarget : ℚ
  cpaAmberOverTarget : ℚ
deriving DecidableEq, Repr

/-- Default thresholds (`DEFAULT_THRESHOLDS` in the source). -/
def DEFAULT_THRESHOLDS : EvaluationThresholds :=
  { gmvGreen := 95 / 100
    gmvAmber := 8 / 10
    retentionGreen := 95 / 100
    retentionAmber := 8 / 10
    cacGreenOverTarget := 1
    cacAmberOverTarget := 12 / 10
    cpaGreenOverTarget := 1
    cpaAmberOverTarget := 12 / 10 }

/-- Inclusive day count between two epoch-millis timestamps
(`computeDurationDays` in the source): `floor((end - start) / msPerDay) + 1`. -/
def computeDurationDays (startDate endDate : ℤ) : ℤ :=
  let msPerDay : ℤ := 1000 * 60 * 60 * 24
  (endDate - startDate).fdiv msPerDay + 1

/-- The duration-scaled, capped retention rate computed inside
`forecastRaffle` (source lines 128–130):
`CRRWindow = min(baselineCRR20d * durationDays / 20, 0.7)`. -/
def forecastCRRWindow (config : RaffleConfig) : ℚ :=
  min (config.baselineCRR20d *
        ((computeDurationDays config.startDate config.endDate : ℚ) / 20)) (7 / 10)

/-- Campaign forecast (`forecastRaffle` in the source).  For the finite
rational inputs modelled here every arithmetic step is exact; the only
division, `baselineLTVNew / targetLTVToCAC`, is idealised as the rational
division (yielding `0` on a zero divisor, where JS yields an infinity — in
both cases the guarded `expectedNewCustomers` is `0`, since an infinite
positive CAC divides the budget down to `0`). -/
def forecastRaffle (config : RaffleConfig) : ForecastOutput :=
  let durationDays : ℤ := computeDurationDays config.startDate config.endDate
  let budgetNew := config.marketingBudgetTotal * config.budgetSplitNew
  let targetCACNew := config.baselineLTVNew / config.targetLTVToCAC
  let expectedNewCustomers := if targetCACNew > 0 then budgetNew / targetCACNew else 0
  let ordersPerNewCustomerWindow : ℚ := 1
  let gmvNewWindow :=
    expectedNewCustomers * ordersPerNewCustomerWindow * config.expectedAOVNew
  let CRRWindow := forecastCRRWindow config
  let expectedRetainedCustomers := config.baseExistingCustomers * CRRWindow
  let gmvPerRetainedWindow :=
    config.baselineGMVPerRetainedUser20d * ((durationDays : ℚ) / 20)
  let gmvRetentionWindow := expectedRetainedCustomers * gmvPerRetainedWindow
  let gmvTotalForecast := gmvNewWindow + gmvRetentionWindow
  { durationDays := (durationDays : ℚ)
    targetCACNew := targetCACNew
    expectedNewCustomers := expectedNewCustomers
    expectedRetainedCustomers := expectedRetainedCustomers
    gmvNewWindow := gmvNewWindow
    gmvRetentionWindow := gmvRetentionWindow
    gmvTotalForecast := gmvTotalForecast }

/-- Progress-based status derivation (`statusFromProgress` in the source);
`progress >= threshold` is the JS comparison (false on NaN). -/
def statusFromProgress (progress greenThreshold amberThreshold : JNum) :
    TrafficLight :=
  if !progress.isFinite then .RED
  else if JNum.jle greenThreshold progress then .GREEN
  else if JNum.jle amberThreshold progress then .AMBER
  else .RED

/-- Overrun-based status derivation (`statusFromOverrun` in the source);
`none` models a `null` actual. -/
def statusFromOverrun (actual : Option JNum) (target greenOver amberOver : JNum) :
    TrafficLight :=
  match actual with
  | none => .RED
  | some a =>
    if !a.isFinite || JNum.jle target (.fin 0) then .RED
    else
      let ratio := JNum.div a target
      if JNum.jle ratio greenOver then .GREEN
      else if JNum.jle ratio amberOver then .AMBER
      else .RED

/-- Snapshot health evaluation (`evaluateHealth` in the source).  `none`
models the thrown `dayNumber out of range` error.  On the non-throwing path
every divisor is guarded to be positive (or is `k > 0` itself), so for the
finite rational inputs modelled here the JS arithmetic is exact and stays
finite; the status helpers are fed the `JNum` injections of those finite
values.  The JS truthiness test `config.baselineCPANew ? … : "AMBER"` is
false exactly on an absent or zero baseline (`NaN` cannot arise from a
rational field). -/
def evaluateHealth (config : RaffleConfig) (forecast : ForecastOutput)
    (snapshot : SnapshotMetrics) (thresholds : EvaluationThresholds) :
    Option HealthStatus :=
  let durationDays := forecast.durationDays
  let k := snapshot.dayNumber
  if k ≤ 0 ∨ k > durationDays then none
  else
    let multiplier := durationDays / k
    let gmvProjected := snapshot.gmvToDate * multiplier
    let spendProjected := snapshot.spendToDate * multiplier
    let newCustomersProjected := snapshot.newCustomersToDate * multiplier
    let retainedCustomersProjected := snapshot.retainedCustomersToDate * multiplier
    let gmvProgress :=
      if forecast.gmvTotalForecast > 0 then gmvProjected / forecast.gmvTotalForecast
      else 0
    let newUserProgress :=
      if forecast.expectedNewCustomers > 0 then
        newCustomersProjected / forecast.expectedNewCustomers
      else 0
    let retainedProgress :=
      if forecast.expectedRetainedCustomers > 0 then
        retainedCustomersProjected / forecast.expectedRetainedCustomers
      else 0
    let spendUtilisation :=
      if config.marketingBudgetTotal > 0 then
        spendProjected / config.marketingBudgetTotal
      else 0
    let actualCPA : Option ℚ :=
      if snapshot.ordersToDate > 0 then
        some (snapshot.spendToDate / snapshot.ordersToDate)
      else none
    let acquisitionSpend :=
      snapshot.acquisitionSpendToDate.getD snapshot.spendToDate
    let actualCACNew : Option ℚ :=
      if snapshot.newCustomersToDate > 0 then
        some (acquisitionSpend / snapshot.newCustomersToDate)
      else none
    let gmvStatus :=
      statusFromProgress (.fin gmvProgress) (.fin thresholds.gmvGreen)
        (.fin thresholds.gmvAmber)
    let retentionStatus :=
      statusFromProgress (.fin retainedProgress) (.fin thresholds.retentionGreen)
        (.fin thresholds.retentionAmber)
    let cpaStatus :=
      match config.baselineCPANew with
      | some b =>
        if b = 0 then .AMBER
        else
          statusFromOverrun (actualCPA.map .fin) (.fin b)
            (.fin thresholds.cpaGreenOverTarget) (.fin thresholds.cpaAmberOverTarget)
      | none => .AMBER
    let cacStatus :=
      statusFromOverrun (actualCACNew.map .fin) (.fin forecast.targetCACNew)
        (.fin thresholds.cacGreenOverTarget) (.fin thresholds.cacAmberOverTarget)
    let statuses := [gmvStatus, cpaStatus, cacStatus]
    let overallStatus : TrafficLight :=
      if statuses.contains .RED then .RED
      else if statuses.contains .AMBER then .AMBER
      else .GREEN
    some
      { dayNumber := k
        gmvProjected := gmvProjected
        gmvProgress := gmvProgress
        spendProjected := spendProjected
        spendUtilisation := spendUtilisation
        newCustomersProjected := newCustomersProjected
        newUserProgress := newUserProgress
        retainedCustomersProjected := retainedCustomersProjected
        retainedProgress := retainedProgress
        actualCPA := actualCPA
        actualCACNew := actualCACNew
        gmvStatus := gmvStatus
        cpaStatus := cpaStatus
        cacStatus := cacStatus
        retentionStatus := retentionStatus
        overallStatus := overallStatus }

end RaffleModel

namespace PhasePlanner

/-- Spend-intensity level (`CACLevel` in the phase-planner half of
`src/raffleModel.ts`). -/
inductive CACLevel where
  | none
  | low
  | medium
  | high
deriving DecidableEq, Repr

/-- Per-phase input of the ticket-phase allocator (`PhaseInput`). -/
structure PhaseInput where
  id : String
  label : String
  ticketsTarget : ℚ
  gmvTarget : ℚ
  cacLevel : CACLevel
deriving DecidableEq, Repr

/-- Per-phase output of the ticket-phase allocator (`PhaseOutput`). -/
structure PhaseOutput where
  id : String
  label : String
  ticketsTarget : ℚ
  gmvTarget : ℚ
  ticketPrice : ℚ
  ordersTarget : ℚ
  cacNominal : ℚ
  budgetRaw : ℚ
  budgetFinal : ℚ
  cacEffective : ℚ
deriving DecidableEq, Repr

/-- Campaign-level inputs of the allocator (`CampaignInputs`). -/
structure CampaignInputs where
  GMV_total : ℚ
  AOV_total : ℚ
  Budget_total : ℚ
  CAC_target : ℚ
  durationDays : ℚ
deriving DecidableEq, Repr

/-- Aggregate result of the allocator (`PhasesCalculationResult`). -/
structure PhasesCalculationResult where
  phases : List PhaseOutput
  GMV_phases_sum : ℚ
  tickets_phases_sum : ℚ
  orders_phases_sum : ℚ
  budget_final_sum : ℚ
  CAC_effective_overall : ℚ
deriving DecidableEq, Repr

/-- Nominal CAC by spend-intensity level (`CAC_BY_LEVEL` in the source). -/
def CAC_BY_LEVEL : CACLevel → ℚ
  | .none => 0
  | .low => 10
  | .medium => 15
  | .high => 20

/-- Step 1 of `calculatePhases`: the raw per-phase metrics, with
`budgetFinal` and `cacEffective` still at their placeholder `0`. -/
def rawPhaseOutput (campaign : CampaignInputs) (phase : PhaseInput) : PhaseOutput :=
  let ticketPrice := if phase.ticketsTarget > 0 then phase.gmvTarget / phase.ticketsTarget else 0
  let ordersTarget := if campaign.AOV_total > 0 then phase.gmvTarget / campaign.AOV_total else 0
  let cacNominal := CAC_BY_LEVEL phase.cacLevel
  let budgetRaw := cacNominal * ordersTarget
  { id := phase.id
    label := phase.label
    ticketsTarget := phase.ticketsTarget
    gmvTarget := phase.gmvTarget
    ticketPrice := ticketPrice
    ordersTarget := ordersTarget
    cacNominal := cacNominal
    budgetRaw := budgetRaw
    budgetFinal := 0
    cacEffective := 0 }

/-- The sum of raw phase budgets computed in step 2 of `calculatePhases`
(`budget_raw_sum` in the source). -/
def rawBudgetSum (campaign : CampaignInputs) (phaseInputs : List PhaseInput) : ℚ :=
  (phaseInputs.map (rawPhaseOutput campaign)).foldl (fun s p => s + p.budgetRaw) 0

/-- Ticket-phase budget allocator (`calculatePhases` in the source).  `none`
models the thrown invalid-campaign-inputs error.  Note the source guard
tests `Budget_total < 0`, not `<= 0`, while its own error message demands
positive inputs.  All arithmetic on the non-throwing path is exact rational
arithmetic; every division in the source is guarded by a positivity test on
its divisor. -/
def calculatePhases (campaign : CampaignInputs) (phaseInputs : List PhaseInput) :
    Option PhasesCalculationResult :=
  if campaign.GMV_total ≤ 0 ∨ campaign.AOV_total ≤ 0 ∨ campaign.Budget_total < 0 then
    none
  else
    let phaseOutputs := phaseInputs.map (rawPhaseOutput campaign)
    let budget_raw_sum := phaseOutputs.foldl (fun s p => s + p.budgetRaw) 0
    let GMV_phases_sum := phaseOutputs.foldl (fun s p => s + p.gmvTarget) 0
    let tickets_phases_sum := phaseOutputs.foldl (fun s p => s + p.ticketsTarget) 0
    let orders_phases_sum := phaseOutputs.foldl (fun s p => s + p.ordersTarget) 0
    let scaledWithSum : List PhaseOutput × ℚ :=
      if budget_raw_sum ≤ 0 then
        (phaseOutputs.map (fun p => { p with budgetFinal := 0, cacEffective := 0 }), 0)
      else
        let scale := campaign.Budget_total / budget_raw_sum
        let outs := phaseOutputs.map (fun p =>
          let budgetFinal := p.budgetRaw * scale
          { p with
            budgetFinal := budgetFinal
            cacEffective := if p.ordersTarget > 0 then budgetFinal / p.ordersTarget else 0 })
        (outs, outs.foldl (fun s p => s + p.budgetFinal) 0)
    let budget_final_sum := scaledWithSum.2
    let CAC_effective_overall :=
      if orders_phases_sum > 0 then budget_final_sum / orders_phases_sum else 0
    some
      { phases := scaledWithSum.1
        GMV_phases_sum := GMV_phases_sum
        tickets_phases_sum := tickets_phases_sum
        orders_phases_sum := orders_phases_sum
        budget_final_sum := budget_final_sum
        CAC_effective_overall := CAC_effective_overall }

end PhasePlanner

namespace PhaseTracking

/-- Phase identifier of the phase-tracking module (`PhaseId`). -/
inductive PhaseId where
  | launch
  | mid
  | push
  | final
deriving DecidableEq, Repr, BEq

/-- Phase configuration (`PhaseConfig` in the phase-tracking module). -/
structure PhaseConfig where
  id : PhaseId
  label : String
  startDay : ℚ
  endDay : ℚ
  targetGMV : ℚ
  targetCAC : ℚ
  expectedAOV : ℚ
  budget : ℚ
deriving DecidableEq, Repr

/-- Campaign configuration (`CampaignConfig` in the phase-tracking module). -/
structure CampaignConfig where
  durationDays : ℚ
  targetGMV : ℚ
  totalBudget : ℚ
  phases : List PhaseConfig
deriving DecidableEq, Repr

/-- Phase snapshot (`PhaseSnapshot` in the phase-tracking module). -/
structure PhaseSnapshot where
  phaseId : PhaseId
  dayInPhase : ℚ
  gmvToDate : ℚ
  spendToDate : ℚ
  newUsersToDate : ℚ
  returningUsersToDate : ℚ
  ordersToDate : ℚ
deriving DecidableEq, Repr

/-- The anonymous `cumulativeStatsToDate` record parameter of
`evaluatePhaseHealth`. -/
structure CumulativeStats where
  gmvToDate : ℚ
  spendToDate : ℚ
  newUsersToDate : ℚ
  ordersToDate : ℚ
deriving DecidableEq, Repr

/-- Output of `evaluatePhaseHealth` (`PhaseHealth` in the source); the
projected GMV figures pass through `Math.round` and so live in `JNum`.  The
free-text `notes` array is not modelled. -/
structure PhaseHealth where
  phaseId : PhaseId
  phaseStatus : TrafficLight
  campaignStatus : TrafficLight
  projectedGMVPhase : JNum
  projectedGMVCampaign : JNum
deriving DecidableEq, Repr

/-- Output of `planPhase` (`PhasePlan` in the source); the planned counts
pass through unguarded divisions and `Math.round`, hence `JNum`. -/
structure PhasePlan where
  phaseId : PhaseId
  label : String
  plannedNewUsers : JNum
  plannedOrders : JNum
  plannedReturningOrders : JNum
  budget : ℚ
  targetGMV : ℚ
  targetCAC : ℚ
  expectedAOV : ℚ
deriving DecidableEq, Repr

/-- Phase planner (`planPhase` in the source).  The divisions
`budget / targetCAC` and `targetGMV / expectedAOV` are unguarded in the
source, so they are modelled with JavaScript division semantics. -/
def planPhase (phase : PhaseConfig) : PhasePlan :=
  let plannedNewUsers := JNum.div (.fin phase.budget) (.fin phase.targetCAC)
  let plannedOrders := JNum.div (.fin phase.targetGMV) (.fin phase.expectedAOV)
  let plannedReturningOrders := JNum.jmax (.fin 0) (JNum.sub plannedOrders plannedNewUsers)
  { phaseId := phase.id
    label := phase.label
    plannedNewUsers := plannedNewUsers.round
    plannedOrders := plannedOrders.round
    plannedReturningOrders := plannedReturningOrders.round
    budget := phase.budget
    targetGMV := phase.targetGMV
    targetCAC := phase.targetCAC
    expectedAOV := phase.expectedAOV }

/-- The string issue tags pushed by `evaluatePhaseHealth` (for example
`"gmv_red"`, `"campaign_cac_amber"`), modelled as an enumeration. -/
inductive IssueTag where
  | gmv_red
  | gmv_amber
  | cac_red
  | cac_amber
  | campaign_gmv_red
  | campaign_gmv_amber
  | campaign_cac_red
  | campaign_cac_amber
deriving DecidableEq, Repr

/-- Models the JavaScript test `issue.includes "_red"` on the tags above. -/
def IssueTag.isRed : IssueTag → Bool
  | .gmv_red => true
  | .cac_red => true
  | .campaign_gmv_red => true
  | .campaign_cac_red => true
  | _ => false

/-- Models the JavaScript test `issue.includes "_amber"` on the tags above. -/
def IssueTag.isAmber : IssueTag → Bool
  | .gmv_amber => true
  | .cac_amber => true
  | .campaign_gmv_amber => true
  | .campaign_cac_amber => true
  | _ => false

/-- Phase health evaluation (`evaluatePhaseHealth` in the source).  `none`
models the thrown phase-not-found error.  The source performs NO validation
of `snapshot.dayInPhase`, and `progressFactor = phaseDuration / dayInPhase`
and several later divisions are unguarded, so the internal arithmetic is
modelled with JavaScript (`JNum`) semantics.  The unused local
`daysRemaining` and the free-text recommendations are not modelled;
`actualCPAPhase` is computed by the source but feeds nothing modelled
here. -/
def evaluatePhaseHealth (campaign : CampaignConfig) (snapshot : PhaseSnapshot)
    (cumulativeStatsToDate : CumulativeStats) : Option PhaseHealth :=
  match campaign.phases.find? (fun p => p.id == snapshot.phaseId) with
  | none => none
  | some phase =>
    let phaseDuration := phase.endDay - phase.startDay + 1
    let progressFactor := JNum.div (.fin phaseDuration) (.fin snapshot.dayInPhase)
    let gmvPhaseProjected := JNum.mul (.fin snapshot.gmvToDate) progressFactor
    let gmvPhaseProgress := JNum.div gmvPhaseProjected (.fin phase.targetGMV)
    let actualCACPhase : ℚ := snapshot.spendToDate / max snapshot.newUsersToDate 1
    let cacRatio := JNum.div (.fin actualCACPhase) (.fin phase.targetCAC)
    let phaseIssues : List IssueTag :=
      (if JNum.jlt gmvPhaseProgress (.fin (8 / 10)) then [.gmv_red]
       else if JNum.jlt gmvPhaseProgress (.fin (95 / 100)) then [.gmv_amber]
       else []) ++
      (if JNum.jlt (.fin (12 / 10)) cacRatio then [.cac_red]
       else if JNum.jlt (.fin 1) cacRatio then [.cac_amber]
       else [])
    let phaseStatus : TrafficLight :=
      if phaseIssues.any (fun i => i.isRed) then .RED
      else if phaseIssues.any (fun i => i.isAmber) then .AMBER
      else .GREEN
    let daysElapsed := phase.startDay - 1 + snapshot.dayInPhase
    let campaignProgressFactor := JNum.div (.fin campaign.durationDays) (.fin daysElapsed)
    let gmvCampaignProjected :=
      JNum.mul (.fin cumulativeStatsToDate.gmvToDate) campaignProgressFactor
    let gmvCampaignProgress := JNum.div gmvCampaignProjected (.fin campaign.targetGMV)
    let actualCACCampaign : ℚ :=
      cumulativeStatsToDate.spendToDate / max cumulativeStatsToDate.newUsersToDate 1
    let campaignTargetCAC :=
      JNum.div (.fin campaign.totalBudget)
        (JNum.mul (JNum.div (.fin campaign.targetGMV) (.fin phase.expectedAOV))
          (.fin (7 / 10)))
    let campaignCACRatio := JNum.div (.fin actualCACCampaign) campaignTargetCAC
    let campaignIssues : List IssueTag :=
      (if JNum.jlt gmvCampaignProgress (.fin (8 / 10)) then [.campaign_gmv_red]
       else if JNum.jlt gmvCampaignProgress (.fin (95 / 100)) then [.campaign_gmv_amber]
       else []) ++
      (if JNum.jlt (.fin (12 / 10)) campaignCACRatio then [.campaign_cac_red]
       else if JNum.jlt (.fin 1) campaignCACRatio then [.campaign_cac_amber]
       else [])
    let campaignStatus : TrafficLight :=
      if campaignIssues.any (fun i => i.isRed) then .RED
      else if campaignIssues.any (fun i => i.isAmber) then .AMBER
      else .GREEN
    some
      { phaseId := snapshot.phaseId
        phaseStatus := phaseStatus
        campaignStatus := campaignStatus
        projectedGMVPhase := gmvPhaseProjected.round
        projectedGMVCampaign := gmvCampaignProjected.round }

end PhaseTracking

namespace WebCalc

/-- Input of `calculateRaffleNeeds` (`CalculatorInput` in
`web/lib/raffleCalculator.ts`); the optional explicit `targetCAC` override
is an `Option`. -/
structure CalculatorInput where
  targetGMV : ℚ
  expectedAOVNew : ℚ
  expectedAOVRet : ℚ
  marketingBudget : ℚ
  durationDays : ℚ
  targetCAC : Option ℚ
  baselineLTVNew : ℚ
  targetLTVToCAC : ℚ
  baselineCRR20d : ℚ
  baselineGMVPerRetainedUser20d : ℚ
  baseExistingCustomers : ℚ
  budgetSplitNew : ℚ
deriving DecidableEq, Repr

/-- The duration-scaled, capped retention rate computed inside
`calculateRaffleNeeds` (source lines 89–90):
`CRRWindow = min(baselineCRR20d * (durationDays / 20), 0.7)`.  Only this
fragment of `calculateRaffleNeeds` is embedded; the remainder (gap
adjustment, rounding, recommendation strings, quarterly table) is untouched
by any verified property. -/
def crrWindow (input : CalculatorInput) : ℚ :=
  min (input.baselineCRR20d * (input.durationDays / 20)) (7 / 10)

/-- Embeds `expectedReturningUsers = baseExistingCustomers * CRRWindow`
(source line 92). -/
def expectedReturningUsers (input : CalculatorInput) : ℚ :=
  input.baseExistingCustomers * crrWindow input

end WebCalc

open RaffleModel PhasePlanner PhaseTracking WebCalc

/-- A left fold accumulating `f` over a list is the initial value plus the
sum of the mapped list. -/
lemma foldl_add_map {α : Type} (f : α → ℚ) :
    ∀ (l : List α) (init : ℚ), l.foldl (fun s p => s + f p) init = init + (l.map f).sum
  | [], init => by simp
  | p :: l, init => by
    simp [List.foldl_cons, foldl_add_map f l, add_assoc]

/-- The `includes`-based roll-up of a three-status list coincides with the
worst status under RED < AMBER < GREEN. -/
lemma contains_rollup_eq_worstOfThree (a b c : TrafficLight) :
    (if ([a, b, c]).contains .RED then TrafficLight.RED
     else if ([a, b, c]).contains .AMBER then TrafficLight.AMBER
     else TrafficLight.GREEN) = worstOfThree a b c := by
  cases a <;> cases b <;> cases c <;> rfl

/-- C1 counterexample input: a one-phase campaign. -/
def c1Campaign : CampaignConfig :=
  { durationDays := 28
    targetGMV := 100000
    totalBudget := 15000
    phases := [{ id := .launch
                 label := "Phase 1"
                 startDay := 1
                 endDay := 7
                 targetGMV := 20000
                 targetCAC := 16
                 expectedAOV := 40
                 budget := 3000 }] }

/-- C1 counterexample input: a snapshot whose day index is `0`. -/
def c1Snapshot : PhaseSnapshot :=
  { phaseId := .launch
    dayInPhase := 0
    gmvToDate := 10
    spendToDate := 5
    newUsersToDate := 2
    returningUsersToDate := 1
    ordersToDate := 3 }

/-- C1 counterexample input: cumulative stats to date. -/
def c1Stats : CumulativeStats :=
  { gmvToDate := 10, spendToDate := 5, newUsersToDate := 2, ordersToDate := 3 }

/-- C1, counterexample: the phase-level variant `evaluatePhaseHealth` does
NOT reject a snapshot with day index `0` — it returns a result (the JS code
divides `phaseDuration` by `0`, producing an infinite projection), so the
claim that both projection variants reject `k = 0` is false. -/
theorem c1_counterexample_phase_day_zero_returns_result :
    c1Snapshot.dayInPhase = 0 ∧
      (evaluatePhaseHealth c1Campaign c1Snapshot c1Stats).isSome = true := by
  constructor
  · rfl
  · decide

/-- C1, amended: the campaign-level `evaluateHealth` rejects a snapshot
exactly when its day index `k` is `≤ 0` or exceeds the period length
`durationDays`, returning no result (the thrown out-of-range error); the
phase-level `evaluatePhaseHealth` performs no such check. -/
theorem c1_amended_evaluateHealth_day_range (config : RaffleConfig)
    (forecast : ForecastOutput) (snapshot : SnapshotMetrics)
    (thresholds : EvaluationThresholds) :
    evaluateHealth config forecast snapshot thresholds = none ↔
      (snapshot.dayNumber ≤ 0 ∨ snapshot.dayNumber > forecast.durationDays) := by
  by_cases h : snapshot.dayNumber ≤ 0 ∨ snapshot.dayNumber > forecast.durationDays <;>
    simp [evaluateHealth, h]

/-- Summing `budgetFinal` over the scaled phase outputs of step 3 of
`calculatePhases` gives the raw-budget sum times the scale factor. -/
lemma foldl_budgetFinal_comp (l : List PhaseInput) (h : PhaseInput → PhaseOutput) (scale : ℚ) :
    List.foldl (fun s p => s + p.budgetFinal) 0
      (List.map ((fun p =>
        { id := p.id, label := p.label, ticketsTarget := p.ticketsTarget,
          gmvTarget := p.gmvTarget, ticketPrice := p.ticketPrice,
          ordersTarget := p.ordersTarget, cacNominal := p.cacNominal,
          budgetRaw := p.budgetRaw,
          budgetFinal := p.budgetRaw * scale,
          cacEffective := if 0 < p.ordersTarget then p.budgetRaw * scale / p.ordersTarget
            else 0 } : PhaseOutput → PhaseOutput) ∘ h) l)
      = (List.foldl (fun s p => s + p.budgetRaw) 0 (l.map h)) * scale := by
  simp only [foldl_add_map, List.map_map, zero_add, Function.comp_def]
  exact List.sum_map_mul_right l (fun p => (h p).budgetRaw) scale

/-- C2 counterexample input: campaign with a positive declared budget. -/
def c2Campaign : CampaignInputs :=
  { GMV_total := 100
    AOV_total := 40
    Budget_total := 50
    CAC_target := 0
    durationDays := 10 }

/-- C2 counterexample input: a phase of non-`none` intensity whose GMV
target is `0`, so its raw budget — and the raw-budget sum — is `0`. -/
def c2Phase : PhaseInput :=
  { id := "p1", label := "Phase 1", ticketsTarget := 0, gmvTarget := 0, cacLevel := .low }

/-- C2, counterexample: with a single phase of intensity `low` but zero GMV
target, the raw-budget sum is `0`, `calculatePhases` takes its no-scaling
branch, and the `budgetFinal` values sum to `0`, not to the declared
`Budget_total = 50` — refuting the claim as stated. -/
theorem c2_counterexample_low_phase_zero_raw_sum :
    c2Phase.cacLevel ≠ CACLevel.none ∧ c2Campaign.Budget_total = 50 ∧
      ((calculatePhases c2Campaign [c2Phase]).map
        (fun r => r.phases.foldl (fun s p => s + p.budgetFinal) 0)) = some 0 := by
  refine ⟨by decide, rfl, ?_⟩
  norm_num [calculatePhases, rawPhaseOutput, CAC_BY_LEVEL, c2Campaign, c2Phase]

/-- C2, amended: whenever the raw phase budgets sum to a positive value
(in particular, some phase must have non-`none` intensity AND a positive
orders target), `calculatePhases` rescales every raw budget by
`Budget_total / rawBudgetSum`, and the returned `budgetFinal` values — and
the returned `budget_final_sum` — sum to exactly `campaign.Budget_total`
(exact rational arithmetic). -/
theorem c2_amended_budget_rescaling (campaign : CampaignInputs)
    (phaseInputs : List PhaseInput)
    (hpos : 0 < rawBudgetSum campaign phaseInputs) :
    ((calculatePhases campaign phaseInputs).map
        (fun r => r.phases.foldl (fun s p => s + p.budgetFinal) 0))
      = ((calculatePhases campaign phaseInputs).map (fun _ => campaign.Budget_total)) ∧
    ((calculatePhases campaign phaseInputs).map (fun r => r.budget_final_sum))
      = ((calculatePhases campaign phaseInputs).map (fun _ => campaign.Budget_total)) := by
  have hne : ¬ ((phaseInputs.map (rawPhaseOutput campaign)).foldl
      (fun s p => s + p.budgetRaw) 0 ≤ 0) := by
    rw [rawBudgetSum] at hpos
    exact not_le.mpr hpos
  have hS : ((phaseInputs.map (rawPhaseOutput campaign)).foldl
      (fun s p => s + p.budgetRaw) 0) ≠ 0 := by
    rw [rawBudgetSum] at hpos
    exact ne_of_gt hpos
  have hsum : ((phaseInputs.map (rawPhaseOutput campaign)).foldl
        (fun s p => s + p.budgetRaw) 0)
        * (campaign.Budget_total /
            ((phaseInputs.map (rawPhaseOutput campaign)).foldl
              (fun s p => s + p.budgetRaw) 0))
      = campaign.Budget_total := by
    rw [mul_div_assoc', mul_comm, mul_div_assoc, div_self hS, mul_one]
  by_cases hguard :
      campaign.GMV_total ≤ 0 ∨ campaign.AOV_total ≤ 0 ∨ campaign.Budget_total < 0
  · simp [calculatePhases, hguard]
  · constructor <;>
      simp [calculatePhases, hguard, hne, foldl_budgetFinal_comp, hsum]

/-- C2 witness input: campaign for the amended rescaling theorem. -/
def c2wCampaign : CampaignInputs :=
  { GMV_total := 100
    AOV_total := 40
    Budget_total := 50
    CAC_target := 0
    durationDays := 10 }

/-- C2 witness input: one `low`-intensity phase with positive GMV target. -/
def c2wPhases : List PhaseInput :=
  [{ id := "p1", label := "Phase 1", ticketsTarget := 2, gmvTarget := 40, cacLevel := .low }]

/-- C2 witness: the amended rescaling theorem applied to a concrete
campaign whose raw-budget sum is positive. -/
theorem c2_amended_budget_rescaling_witness :
    0 < rawBudgetSum c2wCampaign c2wPhases ∧
      (((calculatePhases c2wCampaign c2wPhases).map
          (fun r => r.phases.foldl (fun s p => s + p.budgetFinal) 0))
        = ((calculatePhases c2wCampaign c2wPhases).map (fun _ => c2wCampaign.Budget_total)) ∧
      ((calculatePhases c2wCampaign c2wPhases).map (fun r => r.budget_final_sum))
        = ((calculatePhases c2wCampaign c2wPhases).map (fun _ => c2wCampaign.Budget_total))) :=
  ⟨by norm_num [rawBudgetSum, rawPhaseOutput, CAC_BY_LEVEL, c2wCampaign, c2wPhases],
    c2_amended_budget_rescaling c2wCampaign c2wPhases
      (by norm_num [rawBudgetSum, rawPhaseOutput, CAC_BY_LEVEL, c2wCampaign, c2wPhases])⟩

/-- C3 failing input: positive GMV and AOV totals, zero total budget. -/
def c3Campaign : CampaignInputs :=
  { GMV_total := 100
    AOV_total := 40
    Budget_total := 0
    CAC_target := 0
    durationDays := 10 }

/-- C3 (code-bug evidence): the guard in `calculatePhases` tests
`Budget_total < 0` rather than `<= 0`, so a campaign with
`Budget_total = 0` is accepted and produces a result, although the spec —
and the function's own error message, which demands positive inputs —
say a non-positive total budget must be rejected. -/
theorem c3_code_bug_zero_budget_accepted :
    c3Campaign.Budget_total = 0 ∧ (calculatePhases c3Campaign []).isSome = true := by
  decide

/-- C4: the retention rate used by `forecastRaffle` and by
`calculateRaffleNeeds` is the duration-scaled baseline capped at `0.70` —
never greater than `0.70` for any baseline CRR and duration — and the
expected retained (returning) customers equal the existing base times that
capped rate. -/
theorem c4_retention_rate_capped (config : RaffleConfig) (input : CalculatorInput) :
    forecastCRRWindow config ≤ 7 / 10 ∧
    (forecastRaffle config).expectedRetainedCustomers
        = config.baseExistingCustomers * forecastCRRWindow config ∧
    crrWindow input ≤ 7 / 10 ∧
    expectedReturningUsers input = input.baseExistingCustomers * crrWindow input :=
  ⟨min_le_right _ _, rfl, min_le_right _ _, rfl⟩

/-- C5: when the snapshot day equals the forecast duration, the linear
extrapolation multiplier `D / k` is exactly `1`, so every projected metric
returned by `evaluateHealth` equals its to-date value. -/
theorem c5_projection_identity_at_period_end (config : RaffleConfig)
    (forecast : ForecastOutput) (snapshot : SnapshotMetrics)
    (thresholds : EvaluationThresholds)
    (h : snapshot.dayNumber = forecast.durationDays) :
    ((evaluateHealth config forecast snapshot thresholds).map fun hs =>
        (hs.gmvProjected, hs.spendProjected, hs.newCustomersProjected,
          hs.retainedCustomersProjected))
      = ((evaluateHealth config forecast snapshot thresholds).map fun _ =>
        (snapshot.gmvToDate, snapshot.spendToDate, snapshot.newCustomersToDate,
          snapshot.retainedCustomersToDate)) := by
  by_cases hg : snapshot.dayNumber ≤ 0 ∨ snapshot.dayNumber > forecast.durationDays
  · simp [evaluateHealth, hg]
  · have h1 : ¬ snapshot.dayNumber ≤ 0 := fun hle => hg (Or.inl hle)
    have hk : snapshot.dayNumber ≠ 0 := ne_of_gt (not_le.mp h1)
    have hmul : forecast.durationDays / snapshot.dayNumber = 1 := by
      rw [← h]
      exact div_self hk
    simp [evaluateHealth, hg, hmul]

/-- C5 witness input: a config for the period-end projection theorem. -/
def c5Config : RaffleConfig :=
  { id := "r1"
    name := "Raffle 1"
    startDate := 0
    endDate := 86400000 * 9
    targetGMV := 100000
    averageTicketPrice := 20
    marketingBudgetTotal := 15000
    budgetSplitNew := 3 / 4
    budgetSplitRet := 1 / 4
    baselineLTVNew := 45
    targetLTVToCAC := 5 / 2
    baselineCRR20d := 2 / 25
    baselineGMVPerRetainedUser20d := 35
    baseExistingCustomers := 5000
    expectedAOVNew := 40
    expectedAOVRet := 35
    baselineCPANew := Option.none }

/-- C5 witness input: a forecast of duration 10. -/
def c5Forecast : ForecastOutput :=
  { durationDays := 10
    targetCACNew := 18
    expectedNewCustomers := 625
    expectedRetainedCustomers := 200
    gmvNewWindow := 25000
    gmvRetentionWindow := 3500
    gmvTotalForecast := 28500 }

/-- C5 witness input: a snapshot taken on the final day of the period. -/
def c5Snapshot : SnapshotMetrics :=
  { dayNumber := 10
    gmvToDate := 28500
    spendToDate := 9000
    newCustomersToDate := 500
    retainedCustomersToDate := 100
    ordersToDate := 600
    acquisitionSpendToDate := Option.none }

/-- C5 witness: the period-end projection theorem at a concrete day-10
snapshot of a 10-day forecast. -/
theorem c5_projection_identity_witness :
    ((evaluateHealth c5Config c5Forecast c5Snapshot DEFAULT_THRESHOLDS).map fun hs =>
        (hs.gmvProjected, hs.spendProjected, hs.newCustomersProjected,
          hs.retainedCustomersProjected))
      = ((evaluateHealth c5Config c5Forecast c5Snapshot DEFAULT_THRESHOLDS).map fun _ =>
        (c5Snapshot.gmvToDate, c5Snapshot.spendToDate, c5Snapshot.newCustomersToDate,
          c5Snapshot.retainedCustomersToDate)) :=
  c5_projection_identity_at_period_end c5Config c5Forecast c5Snapshot
    DEFAULT_THRESHOLDS rfl

/-- C6: whenever `evaluateHealth` returns a result, its `overallStatus` is
exactly the worst of `gmvStatus`, `cpaStatus` and `cacStatus` under
RED < AMBER < GREEN, and changing the snapshot's retained-customers count —
the only input that can move `retentionStatus` — never changes
`overallStatus`. -/
theorem c6_overall_worst_of_three_ignores_retention (config : RaffleConfig)
    (forecast : ForecastOutput) (snapshot : SnapshotMetrics)
    (thresholds : EvaluationThresholds) :
    ((evaluateHealth config forecast snapshot thresholds).map fun hs =>
        hs.overallStatus)
      = ((evaluateHealth config forecast snapshot thresholds).map fun hs =>
        worstOfThree hs.gmvStatus hs.cpaStatus hs.cacStatus) ∧
    ∀ r : ℚ,
      ((evaluateHealth config forecast
          { snapshot with retainedCustomersToDate := r } thresholds).map fun hs =>
        hs.overallStatus)
        = ((evaluateHealth config forecast snapshot thresholds).map fun hs =>
          hs.overallStatus) := by
  constructor
  · by_cases hg : snapshot.dayNumber ≤ 0 ∨ snapshot.dayNumber > forecast.durationDays
    · simp [evaluateHealth, hg]
    · simp only [evaluateHealth]
      rw [if_neg hg]
      exact congrArg some (contains_rollup_eq_worstOfThree _ _ _)
  · intro r
    by_cases hg : snapshot.dayNumber ≤ 0 ∨ snapshot.dayNumber > forecast.durationDays
    · simp [evaluateHealth, hg]
    · simp [evaluateHealth, hg]

/-- C7: the overrun rules — a `null` actual, a non-finite actual, or a
non-positive target always yields RED; for a finite actual and positive
target the status is GREEN when `actual/target ≤ greenOver`, AMBER when it
is `≤ amberOver`, else RED; and when the config carries no baseline CPA
target, `evaluateHealth` reports `cpaStatus = AMBER` for every snapshot. -/
theorem c7_overrun_rules_and_cpa_default (q t g amb : ℚ) (tj gj aj : JNum) :
    statusFromOverrun Option.none tj gj aj = .RED ∧
    statusFromOverrun (some .inf) tj gj aj = .RED ∧
    statusFromOverrun (some .ninf) tj gj aj = .RED ∧
    statusFromOverrun (some .nan) tj gj aj = .RED ∧
    (t ≤ 0 → statusFromOverrun (some (.fin q)) (.fin t) gj aj = .RED) ∧
    (0 < t → statusFromOverrun (some (.fin q)) (.fin t) (.fin g) (.fin amb)
        = (if q / t ≤ g then .GREEN else if q / t ≤ amb then .AMBER else .RED)) ∧
    (∀ (config : RaffleConfig) (forecast : ForecastOutput)
        (snapshot : SnapshotMetrics) (thresholds : EvaluationThresholds),
      config.baselineCPANew = Option.none →
        ((evaluateHealth config forecast snapshot thresholds).map fun hs =>
            hs.cpaStatus)
          = ((evaluateHealth config forecast snapshot thresholds).map fun _ =>
            TrafficLight.AMBER)) := by
  refine ⟨rfl, rfl, rfl, rfl, ?_, ?_, ?_⟩
  · intro ht
    simp [statusFromOverrun, JNum.isFinite, JNum.jle, ht]
  · intro ht
    simp [statusFromOverrun, JNum.isFinite, JNum.jle, JNum.div,
      not_le.mpr ht, ht.ne']
  · intro config forecast snapshot thresholds hnone
    by_cases hg : snapshot.dayNumber ≤ 0 ∨ snapshot.dayNumber > forecast.durationDays
    · simp [evaluateHealth, hg]
    · simp [evaluateHealth, hg, hnone]

/-- C7 witness input: a snapshot for the CPA-default clause. -/
def c7Snapshot : SnapshotMetrics :=
  { dayNumber := 4
    gmvToDate := 8000
    spendToDate := 3000
    newCustomersToDate := 150
    retainedCustomersToDate := 40
    ordersToDate := 200
    acquisitionSpendToDate := some 2500 }

/-- C7 witness: the overrun rules applied at concrete inputs — a
non-positive target is RED, a positive target classifies by the ratio
(here `5/4 ≤ 1.2` gives AMBER), and a config without a baseline CPA yields
`cpaStatus = AMBER` on a concrete snapshot. -/
theorem c7_overrun_rules_witness :
    (statusFromOverrun (some (.fin 5)) (.fin (-2)) (.fin 1) (.fin (12 / 10))
        = TrafficLight.RED) ∧
    (statusFromOverrun (some (.fin 5)) (.fin 4) (.fin 1) (.fin (12 / 10))
        = if (5 : ℚ) / 4 ≤ 1 then TrafficLight.GREEN
          else if (5 : ℚ) / 4 ≤ 12 / 10 then TrafficLight.AMBER
          else TrafficLight.RED) ∧
    ((evaluateHealth c5Config c5Forecast c7Snapshot DEFAULT_THRESHOLDS).map fun hs =>
        hs.cpaStatus)
      = ((evaluateHealth c5Config c5Forecast c7Snapshot DEFAULT_THRESHOLDS).map fun _ =>
        TrafficLight.AMBER) := by
  obtain ⟨-, -, -, -, hred, hratio, hcpa⟩ :=
    c7_overrun_rules_and_cpa_default 5 (-2) 1 (12 / 10) (.fin 1) (.fin 1) (.fin 1)
  refine ⟨hred (by norm_num), ?_, ?_⟩
  · obtain ⟨-, -, -, -, -, hratio4, -⟩ :=
      c7_overrun_rules_and_cpa_default 5 4 1 (12 / 10) (.fin 1) (.fin 1) (.fin 1)
    exact hratio4 (by norm_num)
  · exact hcpa c5Config c5Forecast c7Snapshot DEFAULT_THRESHOLDS rfl

/-- C8: the progress rule is RED on every non-finite progress value, equals
the two-threshold classification on finite values, and is monotone — for
fixed thresholds a larger progress value can only improve the status in
the order RED < AMBER < GREEN. -/
theorem c8_progress_rule_monotone (p g a q q' : ℚ) (gj aj : JNum)
    (hqq : q ≤ q') :
    statusFromProgress .inf gj aj = .RED ∧
    statusFromProgress .ninf gj aj = .RED ∧
    statusFromProgress .nan gj aj = .RED ∧
    (statusFromProgress (.fin p) (.fin g) (.fin a)
        = if g ≤ p then .GREEN else if a ≤ p then .AMBER else .RED) ∧
    (statusFromProgress (.fin q) (.fin g) (.fin a)).rank
      ≤ (statusFromProgress (.fin q') (.fin g) (.fin a)).rank := by
  have shape : ∀ x : ℚ, statusFromProgress (.fin x) (.fin g) (.fin a)
      = if g ≤ x then .GREEN else if a ≤ x then .AMBER else .RED := by
    intro x
    simp [statusFromProgress, JNum.isFinite, JNum.jle]
  refine ⟨rfl, rfl, rfl, shape p, ?_⟩
  rw [shape q, shape q']
  by_cases h1 : g ≤ q
  · rw [if_pos h1, if_pos (h1.trans hqq)]
  · rw [if_neg h1]
    by_cases h2 : a ≤ q
    · rw [if_pos h2]
      by_cases h3 : g ≤ q'
      · rw [if_pos h3]
        exact Nat.le_of_lt (by decide)
      · rw [if_neg h3, if_pos (h2.trans hqq)]
    · rw [if_neg h2]
      exact Nat.zero_le _

/-- C8 witness: monotonicity applied at concrete progress values
`0.7 ≤ 0.9` against the default GMV thresholds. -/
theorem c8_progress_rule_witness :
    (statusFromProgress (.fin (7 / 10)) (.fin (95 / 100)) (.fin (8 / 10))).rank
      ≤ (statusFromProgress (.fin (9 / 10)) (.fin (95 / 100)) (.fin (8 / 10))).rank :=
  (c8_progress_rule_monotone (7 / 10) (95 / 100) (8 / 10) (7 / 10) (9 / 10)
    (.fin 1) (.fin 1) (by norm_num)).2.2.2.2

/-- JavaScript division of finite values with a nonzero divisor is exact
rational division. -/
lemma JNum.div_fin_fin (a b : ℚ) (h : b ≠ 0) :
    JNum.div (.fin a) (.fin b) = .fin (a / b) := by
  simp [JNum.div, h]

/-- Rounding with `Math.round` preserves (non-)finiteness. -/
lemma JNum.round_isFinite (x : JNum) : x.round.isFinite = x.isFinite := by
  cases x <;> rfl

/-- JavaScript division of a finite value by zero is never finite: it is an
infinity for a nonzero numerator and NaN for `0 / 0`. -/
lemma JNum.div_fin_zero_isFinite (a : ℚ) :
    (JNum.div (.fin a) (.fin 0)).isFinite = false := by
  simp only [JNum.div, if_pos]
  split_ifs <;> rfl

/-- Rounding the JavaScript `Math.max(0, x)` never produces a value that is
strictly less than `0` under the JavaScript `<` (NaN comparisons are
false). -/
lemma round_jmax_zero_not_neg (x : JNum) :
    JNum.jlt (JNum.round (JNum.jmax (.fin 0) x)) (.fin 0) = false := by
  cases x with
  | fin y =>
    have h1 : (0 : ℚ) ≤ max 0 y + 1 / 2 := by
      have := le_max_left (0 : ℚ) y
      linarith
    simp only [JNum.jmax, JNum.round, JNum.jlt]
    rw [decide_eq_false_iff_not, not_lt]
    exact_mod_cast Int.floor_nonneg.mpr h1
  | inf => rfl
  | ninf =>
    simp only [JNum.jmax, JNum.round, JNum.jlt]
    rw [decide_eq_false_iff_not, not_lt]
    norm_num
  | nan => rfl

/-- C9 example input: the phase of the spec's worked example. -/
def c9Phase : PhaseConfig :=
  { id := .launch
    label := "Phase example"
    startDay := 1
    endDay := 10
    targetGMV := 50000
    targetCAC := 18
    expectedAOV := 40
    budget := 20000 }

/-- C9: `planPhase` returns the rounded `budget / targetCAC`,
`targetGMV / expectedAOV`, and `max(0, orders − newUsers)`; the returning
orders are never negative; and the spec's worked example
`budget 20000, targetCAC 18, targetGMV 50000, expectedAOV 40` yields
exactly 1111, 1250 and 139. -/
theorem c9_planPhase_formulas_and_example (phase : PhaseConfig) :
    (planPhase phase).plannedNewUsers
        = (JNum.div (.fin phase.budget) (.fin phase.targetCAC)).round ∧
    (planPhase phase).plannedOrders
        = (JNum.div (.fin phase.targetGMV) (.fin phase.expectedAOV)).round ∧
    (planPhase phase).plannedReturningOrders
        = (JNum.jmax (.fin 0)
            (JNum.sub (JNum.div (.fin phase.targetGMV) (.fin phase.expectedAOV))
              (JNum.div (.fin phase.budget) (.fin phase.targetCAC)))).round ∧
    JNum.jlt (planPhase phase).plannedReturningOrders (.fin 0) = false ∧
    (planPhase c9Phase).plannedNewUsers = .fin 1111 ∧
    (planPhase c9Phase).plannedOrders = .fin 1250 ∧
    (planPhase c9Phase).plannedReturningOrders = .fin 139 := by
  have e1 : (planPhase c9Phase).plannedNewUsers = .fin 1111 := by
    show (JNum.div (.fin (20000 : ℚ)) (.fin (18 : ℚ))).round = .fin 1111
    rw [JNum.div_fin_fin _ _ (by norm_num)]
    simp only [JNum.round]
    have h1 : ⌊(20000 : ℚ) / 18 + 1 / 2⌋ = (1111 : ℤ) := by
      rw [Int.floor_eq_iff]
      norm_num
    rw [h1]
    norm_num
  have e2 : (planPhase c9Phase).plannedOrders = .fin 1250 := by
    show (JNum.div (.fin (50000 : ℚ)) (.fin (40 : ℚ))).round = .fin 1250
    rw [JNum.div_fin_fin _ _ (by norm_num)]
    simp only [JNum.round]
    have h1 : ⌊(50000 : ℚ) / 40 + 1 / 2⌋ = (1250 : ℤ) := by
      rw [Int.floor_eq_iff]
      norm_num
    rw [h1]
    norm_num
  have e3 : (planPhase c9Phase).plannedReturningOrders = .fin 139 := by
    show (JNum.jmax (.fin 0)
        (JNum.sub (JNum.div (.fin (50000 : ℚ)) (.fin (40 : ℚ)))
          (JNum.div (.fin (20000 : ℚ)) (.fin (18 : ℚ))))).round = .fin 139
    rw [JNum.div_fin_fin _ _ (by norm_num), JNum.div_fin_fin _ _ (by norm_num)]
    simp only [JNum.sub, JNum.neg, JNum.add, JNum.jmax, JNum.round]
    have hmax : max (0 : ℚ) (50000 / 40 + -(20000 / 18)) = 1250 / 9 := by
      rw [max_eq_right] <;> norm_num
    rw [hmax]
    have h1 : ⌊(1250 : ℚ) / 9 + 1 / 2⌋ = (139 : ℤ) := by
      rw [Int.floor_eq_iff]
      norm_num
    rw [h1]
    norm_num
  exact ⟨rfl, rfl, rfl, round_jmax_zero_not_neg _, e1, e2, e3⟩

/-- C10 failing-precondition input: a phase whose target CAC is zero. -/
def c10ZeroCACPhase : PhaseConfig :=
  { id := .launch
    label := "Zero CAC"
    startDay := 1
    endDay := 7
    targetGMV := 20000
    targetCAC := 0
    expectedAOV := 40
    budget := 3000 }

/-- C10 witness input: a phase with nonzero target CAC and AOV. -/
def c10FinitePhase : PhaseConfig :=
  { id := .mid
    label := "Finite"
    startDay := 8
    endDay := 14
    targetGMV := 25000
    targetCAC := 18
    expectedAOV := 42
    budget := 4000 }

/-- C10 witness input: a config whose LTV-derived target CAC is negative. -/
def c10Config : RaffleConfig :=
  { id := "r2"
    name := "Raffle 2"
    startDate := 0
    endDate := 86400000 * 9
    targetGMV := 100000
    averageTicketPrice := 20
    marketingBudgetTotal := 15000
    budgetSplitNew := 3 / 4
    budgetSplitRet := 1 / 4
    baselineLTVNew := -45
    targetLTVToCAC := 5 / 2
    baselineCRR20d := 2 / 25
    baselineGMVPerRetainedUser20d := 35
    baseExistingCustomers := 5000
    expectedAOVNew := 40
    expectedAOVRet := 35
    baselineCPANew := Option.none }

/-- C10: `planPhase` divides by `targetCAC` without any guard — a phase
with `targetCAC = 0` still returns, but its `plannedNewUsers` is
non-finite; all three planned counts are finite whenever `targetCAC` and
`expectedAOV` are nonzero; by contrast `forecastRaffle` substitutes `0`
expected new customers whenever its target CAC is not positive. -/
theorem c10_planPhase_unguarded_division (phase : PhaseConfig)
    (config : RaffleConfig) :
    (phase.targetCAC = 0 → (planPhase phase).plannedNewUsers.isFinite = false) ∧
    (phase.targetCAC ≠ 0 → phase.expectedAOV ≠ 0 →
      ((planPhase phase).plannedNewUsers.isFinite = true ∧
        (planPhase phase).plannedOrders.isFinite = true ∧
        (planPhase phase).plannedReturningOrders.isFinite = true)) ∧
    ((forecastRaffle config).targetCACNew ≤ 0 →
      (forecastRaffle config).expectedNewCustomers = 0) := by
  refine ⟨?_, ?_, ?_⟩
  · intro h0
    show ((JNum.div (.fin phase.budget) (.fin phase.targetCAC)).round).isFinite = false
    rw [h0, JNum.round_isFinite]
    exact JNum.div_fin_zero_isFinite _
  · intro h1 h2
    refine ⟨?_, ?_, ?_⟩
    · show ((JNum.div (.fin phase.budget) (.fin phase.targetCAC)).round).isFinite = true
      rw [JNum.div_fin_fin _ _ h1]
      rfl
    · show ((JNum.div (.fin phase.targetGMV) (.fin phase.expectedAOV)).round).isFinite = true
      rw [JNum.div_fin_fin _ _ h2]
      rfl
    · show ((JNum.jmax (.fin 0)
          (JNum.sub (JNum.div (.fin phase.targetGMV) (.fin phase.expectedAOV))
            (JNum.div (.fin phase.budget) (.fin phase.targetCAC)))).round).isFinite = true
      rw [JNum.div_fin_fin _ _ h2, JNum.div_fin_fin _ _ h1]
      rfl
  · intro hle
    have hnot : ¬ (0 < config.baselineLTVNew / config.targetLTVToCAC) := by
      simpa [forecastRaffle] using not_lt.mpr hle
    simp [forecastRaffle, hnot]

/-- C10 witness: a zero-CAC phase produces a non-finite planned-new-users
count, a nonzero-CAC phase produces all-finite counts, and a config with a
negative LTV-derived CAC forecasts zero expected new customers. -/
theorem c10_planPhase_unguarded_division_witness :
    (planPhase c10ZeroCACPhase).plannedNewUsers.isFinite = false ∧
    ((planPhase c10FinitePhase).plannedNewUsers.isFinite = true ∧
      (planPhase c10FinitePhase).plannedOrders.isFinite = true ∧
      (planPhase c10FinitePhase).plannedReturningOrders.isFinite = true) ∧
    (forecastRaffle c10Config).expectedNewCustomers = 0 :=
  ⟨(c10_planPhase_unguarded_division c10ZeroCACPhase c10Config).1 rfl,
    (c10_planPhase_unguarded_division c10FinitePhase c10Config).2.1
      (by norm_num [c10FinitePhase]) (by norm_num [c10FinitePhase]),
    (c10_planPhase_unguarded_division c10FinitePhase c10Config).2.2
      (by norm_num [forecastRaffle, c10Config])⟩
